import Mathlib

/-!
# node-mapserver: the binding layer of `src/mapserver_bindings.cc`

A shallow embedding of the handlers that bridge the MapServer engine into the
host runtime.  Native pointers are `Option Nat` (`none` is `NULL`), native
structures live in a `Memory` addressed by position, the engine is a record of
its answers, and every handler returns, next to its completion, the list of
engine and host-runtime calls it made, in program order.
-/

namespace Mapserver

/-! ## Host-runtime values -/

/-- Exception constructors reached through `Exception::TYPE(...)`. -/
inductive ErrorType
  | Error
  | TypeError
  deriving DecidableEq, Repr

/-- The C++ object `Map : ObjectWrap`; `_map` is its `mapObj *` member. -/
structure Map where
  _map : Option Nat
  deriving DecidableEq, Repr

/-- The C++ object `Layer : ObjectWrap`; `_layer` is its `layerObj *` member. -/
structure Layer where
  _layer : Option Nat
  deriving DecidableEq, Repr

/-- The C++ object `ErrorObj : ObjectWrap`; `_err` is its `errorObj *` member. -/
structure ErrorObj where
  _err : Option Nat
  deriving DecidableEq, Repr

/-- Values of the host runtime that cross the boundary.  Numbers are the
integral ones; `layersObject` is the object built for the `layers` property,
whose internal field points back at the `Map` wrapper. -/
inductive JsValue
  | undefined
  | null
  | boolean (b : Bool)
  | number (n : Int)
  | string (s : String)
  | external (p : Option Nat)
  | mapObject (w : Map)
  | layersObject (w : Map)
  | layerObject (w : Layer)
  | errorObject (w : ErrorObj)
  | buffer (data : Option Nat) (size : Int)
  deriving DecidableEq, Repr

/-- How a handler ends: it hands a value back, it throws through
`ThrowException`, or it touches native memory that is not there (undefined
behaviour of the C++ program). -/
inductive Completion
  | returned (v : JsValue)
  | thrown (type : ErrorType) (message : String)
  | fault
  deriving DecidableEq, Repr

/-- Calls that leave the binding layer: the engine's `ms*` functions, the
host runtime's `Buffer::New`, and the `new` of a wrapper object. -/
inductive Event
  | msLoadMap (filename path : String)
  | msFreeMap (map : Option Nat)
  | msDrawMap (map : Option Nat)
  | msSaveImageBuffer (img : Option Nat) (format : Option Nat)
  | msFreeImage (img : Option Nat)
  | msFree (data : Option Nat)
  | msResetErrorList
  | msGetErrorObj
  | msGetErrorCodeString (code : Int)
  | BufferNew (data : Option Nat) (size : Int)
  | newMap (map : Option Nat)
  | newLayer (layer : Option Nat)
  | newErrorObj (err : Option Nat)
  deriving DecidableEq, Repr

/-- The engine's release operations. -/
def Event.isFree : Event → Bool
  | .msFreeMap _ => true
  | .msFreeImage _ => true
  | .msFree _ => true
  | _ => false

/-- A completion together with the calls made on the way to it. -/
structure Result where
  completion : Completion
  trace : List Event
  deriving DecidableEq, Repr

/-- The test `Value::IsString`. -/
def JsValue.IsString : JsValue → Bool
  | .string _ => true
  | _ => false

/-- The test `Value::IsExternal`. -/
def JsValue.IsExternal : JsValue → Bool
  | .external _ => true
  | _ => false

/-- Reduction of an integer to the signed 32-bit range. -/
def wrapInt32 (n : Int) : Int :=
  (n + 2 ^ 31) % 2 ^ 32 - 2 ^ 31

/-- Conversion of a C `int` to `unsigned int`, as the usual arithmetic
conversions do when an `int` meets a `uint32_t`. -/
def toUInt32 (n : Int) : Nat :=
  (n % 2 ^ 32).toNat

/-- What the host runtime answers where the bindings hand it a value that is
not a number: `Int32Value` is its conversion of such a value to a 32-bit
integer (the language's number conversion followed by the reduction to 32
bits), which lives in the host runtime and not in this repository. -/
structure Host where
  Int32Value : JsValue → Int

/-- The conversion `Value::Int32Value`: an integral number is reduced to 32
bits; for every other value the host runtime's own answer is taken. -/
def JsValue.Int32Value (host : Host) : JsValue → Int
  | .number n => wrapInt32 n
  | v => host.Int32Value v

/-- The conversion `Value::ToString` followed by reading the characters out
(`String::Utf8Value`, `String::AsciiValue`). -/
def JsValue.ToString : JsValue → String
  | .undefined => "undefined"
  | .null => "null"
  | .boolean b => if b then "true" else "false"
  | .number n => toString n
  | .string s => s
  | _ => "[object Object]"

/-- The expression `args[I]`: the argument at position `I`, `undefined` past the end. -/
def arg (args : List JsValue) (I : Nat) : JsValue :=
  args.getD I .undefined

/-! ## Native structures -/

/-- The fields of the engine's `layerObj` that the bindings touch; `name` is a
`char *`. -/
structure layerObj where
  name : Option Nat
  deriving DecidableEq, Repr

/-- The fields of the engine's `errorObj` that the bindings touch; `message`
and `routine` are character arrays inside the record. -/
structure errorObj where
  code : Int
  message : String
  routine : String
  deriving DecidableEq, Repr

/-- The fields of the engine's `mapObj` that the bindings touch; `layers` is
the native array of `layerObj *`, one entry per allocated slot. -/
structure mapObj where
  width : Int
  height : Int
  numlayers : Int
  layers : List (Option Nat)
  outputformat : Option Nat
  deriving DecidableEq, Repr

/-- Native memory: each kind of structure is addressed by its position; a
character buffer is `none` once it has been released. -/
structure Memory where
  mapObjs : List mapObj
  layerObjs : List layerObj
  errorObjs : List errorObj
  chars : List (Option String)
  deriving DecidableEq, Repr

/-- What the engine answers.  `errorList` is its process-wide error list, the
most recent record first. -/
structure Engine where
  errorList : List Nat
  msLoadMap : String → String → Option Nat
  msDrawMap : Option Nat → Option Nat
  msSaveImageBuffer : Option Nat → Option Nat → Option Nat × Int
  msGetErrorCodeString : Int → String

/-- Modelled from the spec: the engine's `resetErrorList`, which is not part of
this repository; it clears the process-wide error list. -/
def msResetErrorList (eng : Engine) : Engine :=
  { eng with errorList := [] }

/-- Modelled from the spec: the engine's `getMostRecentError`, which is not part
of this repository; it yields the most recent record, or null when the list is
empty. -/
def msGetErrorObj (eng : Engine) : Option Nat :=
  eng.errorList.head?

/-- Dereference `map->_map`. -/
def Memory.mapAt (mem : Memory) (self : Map) : Option mapObj :=
  match self._map with
  | none => none
  | some p => mem.mapObjs[p]?

/-- Dereference `layer->_layer`. -/
def Memory.layerAt (mem : Memory) (self : Layer) : Option layerObj :=
  match self._layer with
  | none => none
  | some p => mem.layerObjs[p]?

/-- Dereference `err->_err`. -/
def Memory.errorAt (mem : Memory) (self : ErrorObj) : Option errorObj :=
  match self._err with
  | none => none
  | some p => mem.errorObjs[p]?

/-- The text a `char *` points at: `none` for `NULL`, for an address that was
never handed out, and for a buffer that has been released. -/
def Memory.cstr (mem : Memory) (p : Option Nat) : Option String :=
  match p with
  | none => none
  | some a => (mem.chars[a]?).join

/-! ## Argument macros -/

/-- The macro `REQ_STR_ARG(I, VAR)`: the thrown `TypeError`, or the characters
of the argument. -/
def REQ_STR_ARG (args : List JsValue) (I : Nat) : Except Completion String :=
  if args.length ≤ I || !(arg args I).IsString then
    .error (.thrown .TypeError ("Argument " ++ toString I ++ " must be a string"))
  else
    .ok (arg args I).ToString

/-- The macro `REQ_EXT_ARG(I, VAR)`: the thrown `TypeError`, or the pointer
inside the external. -/
def REQ_EXT_ARG (args : List JsValue) (I : Nat) : Except Completion (Option Nat) :=
  if args.length ≤ I || !(arg args I).IsExternal then
    .error (.thrown .TypeError ("Argument " ++ toString I ++ " invalid"))
  else
    match arg args I with
    | .external p => .ok p
    | _ => .ok none

/-! ## Wrapper construction and destruction -/

/-- The constructor callback `Map::New`: wraps a new `Map` around the
external's pointer and returns `args.This()`.  Its `assert(args.IsConstructCall())`
holds on every call made through `NewInstance`. -/
def Map.New (args : List JsValue) : Result :=
  match REQ_EXT_ARG args 0 with
  | .error c => ⟨c, []⟩
  | .ok map => ⟨.returned (.mapObject ⟨map⟩), [.newMap map]⟩

/-- The constructor callback `Layer::New`. -/
def Layer.New (args : List JsValue) : Result :=
  match REQ_EXT_ARG args 0 with
  | .error c => ⟨c, []⟩
  | .ok layer => ⟨.returned (.layerObject ⟨layer⟩), [.newLayer layer]⟩

/-- The constructor callback `ErrorObj::New`. -/
def ErrorObj.New (args : List JsValue) : Result :=
  match REQ_EXT_ARG args 0 with
  | .error c => ⟨c, []⟩
  | .ok err => ⟨.returned (.errorObject ⟨err⟩), [.newErrorObj err]⟩

/-- The macro `RETURN_MAP(MAP)`. -/
def RETURN_MAP (map : Option Nat) : Result :=
  if map = none then ⟨.returned .null, []⟩
  else Map.New [.external map]

/-- The macro `RETURN_LAYER(LAYER)`. -/
def RETURN_LAYER (layer : Option Nat) : Result :=
  if layer = none then ⟨.returned .null, []⟩
  else Layer.New [.external layer]

/-- The macro `RETURN_ERROR(ERROR)`. -/
def RETURN_ERROR (err : Option Nat) : Result :=
  if err = none then ⟨.returned .null, []⟩
  else ErrorObj.New [.external err]

/-- The destructor `Map::~Map`. -/
def Map.finalize (self : Map) : List Event :=
  if self._map ≠ none then [.msFreeMap self._map] else []

/-- The destructor `Layer::~Layer`; the call to `msFreeLayer` is commented
out. -/
def Layer.finalize (self : Layer) : List Event :=
  if self._layer ≠ none then [] else []

/-- The method `Layer::Destroy`; the call to `msFreeLayer` is commented out. -/
def Layer.Destroy (_self : Layer) : Result :=
  ⟨.returned .undefined, []⟩

/-- The destructor `ErrorObj::~ErrorObj`. -/
def ErrorObj.finalize (_self : ErrorObj) : List Event :=
  []

/-! ## Free functions of the module -/

/-- The function `Mapserver::LoadMap`. -/
def LoadMap (eng : Engine) (args : List JsValue) : Result :=
  match REQ_STR_ARG args 0 with
  | .error c => ⟨c, []⟩
  | .ok filename =>
    match REQ_STR_ARG args 1 with
    | .error c => ⟨c, []⟩
    | .ok path =>
      let map := eng.msLoadMap filename path
      if map = none then
        ⟨.thrown .Error "Ugh", [.msLoadMap filename path]⟩
      else
        let r := RETURN_MAP map
        ⟨r.completion, .msLoadMap filename path :: r.trace⟩

/-- The function `Mapserver::ResetErrorList`: the engine afterwards, and the result. -/
def ResetErrorList (eng : Engine) (_args : List JsValue) : Engine × Result :=
  (msResetErrorList eng, ⟨.returned .undefined, [.msResetErrorList]⟩)

/-- The function `Mapserver::GetError`. -/
def GetError (eng : Engine) (_args : List JsValue) : Result :=
  let err := msGetErrorObj eng
  if err = none then
    ⟨.returned .undefined, [.msGetErrorObj]⟩
  else
    let r := RETURN_ERROR err
    ⟨r.completion, .msGetErrorObj :: r.trace⟩

/-! ## `ErrorObj` -/

/-- The handler `ErrorObj::NamedPropertyGetter`. -/
def ErrorObj.NamedPropertyGetter (eng : Engine) (self : ErrorObj) (property : String)
    (mem : Memory) : Result :=
  if property = "code" then
    match mem.errorAt self with
    | none => ⟨.fault, []⟩
    | some e => ⟨.returned (.number e.code), []⟩
  else if property = "codeStr" then
    match mem.errorAt self with
    | none => ⟨.fault, []⟩
    | some e =>
      ⟨.returned (.string (eng.msGetErrorCodeString e.code)), [.msGetErrorCodeString e.code]⟩
  else if property = "message" then
    match mem.errorAt self with
    | none => ⟨.fault, []⟩
    | some e => ⟨.returned (.string e.message), []⟩
  else if property = "routine" then
    match mem.errorAt self with
    | none => ⟨.fault, []⟩
    | some e => ⟨.returned (.string e.routine), []⟩
  else
    ⟨.returned .undefined, []⟩

/-! ## `Map` -/

/-- The method `Map::Destroy` (defined in the class, not registered by `Map::Init`). -/
def Map.Destroy (self : Map) : Result :=
  ⟨.returned .undefined, [.msFreeMap self._map]⟩

/-- The handler `Map::NamedPropertyGetter`. -/
def Map.NamedPropertyGetter (self : Map) (property : String) (mem : Memory) : Result :=
  if property = "width" then
    match mem.mapAt self with
    | none => ⟨.fault, []⟩
    | some m => ⟨.returned (.number m.width), []⟩
  else if property = "height" then
    match mem.mapAt self with
    | none => ⟨.fault, []⟩
    | some m => ⟨.returned (.number m.height), []⟩
  else if property = "layers" then
    ⟨.returned (.layersObject self), []⟩
  else
    ⟨.returned .undefined, []⟩

/-- What a property setter leaves behind: `memory` is native memory after the
stores the handler made (`none` when a store went through a pointer that points
at nothing), `completion` is how the handler ended. -/
structure Assigned where
  memory : Option Memory
  completion : Completion
  deriving DecidableEq, Repr

/-- The handler `Map::NamedPropertySetter`.  It is declared to return
`Handle<Value>` and contains no `return` statement: on every path, after the
store if there is one, control flows off the end of the function, which is
undefined behaviour; the completion is `fault` on every path. -/
def Map.NamedPropertySetter (host : Host) (self : Map) (property : String) (value : JsValue)
    (mem : Memory) : Assigned :=
  if property = "width" then
    match self._map, mem.mapAt self with
    | some p, some m =>
      ⟨some { mem with mapObjs := mem.mapObjs.set p { m with width := value.Int32Value host } },
        .fault⟩
    | _, _ => ⟨none, .fault⟩
  else if property = "height" then
    match self._map, mem.mapAt self with
    | some p, some m =>
      ⟨some { mem with mapObjs := mem.mapObjs.set p { m with height := value.Int32Value host } },
        .fault⟩
    | _, _ => ⟨none, .fault⟩
  else
    ⟨some mem, .fault⟩

/-- The handler `Map::LayersIndexedGetter`, with `index` the `uint32_t` it receives: the
result, and the slots of `map->_map->layers` that were read, in order.  The
comparison with the `int` field `numlayers` is made in `unsigned int`; the
macro `RETURN_LAYER` evaluates its argument once for the null test and once
more for `External::New`. -/
def Map.LayersIndexedGetter (self : Map) (index : Nat) (mem : Memory) : Result × List Nat :=
  match mem.mapAt self with
  | none => (⟨.fault, []⟩, [])
  | some m =>
    if 0 ≤ index ∧ index < toUInt32 m.numlayers then
      match m.layers[index]? with
      | none => (⟨.fault, []⟩, [index])
      | some layer => (RETURN_LAYER layer, if layer = none then [index] else [index, index])
    else
      (⟨.returned .undefined, []⟩, [])

/-- The handler `Map::LayersNamedGetter`. -/
def Map.LayersNamedGetter (self : Map) (name : String) (mem : Memory) : Result :=
  if name = "length" then
    match mem.mapAt self with
    | none => ⟨.fault, []⟩
    | some m => ⟨.returned (.number m.numlayers), []⟩
  else
    ⟨.returned .undefined, []⟩

/-- The callback `Map::FreeImageBuffer`, the release callback handed to `Buffer::New`. -/
def Map.FreeImageBuffer (data : Option Nat) (_hint : Option Nat) : List Event :=
  [.msFree data]

/-- The method `Map::DrawMap`. -/
def Map.DrawMap (eng : Engine) (self : Map) (_args : List JsValue) (mem : Memory) : Result :=
  let im := eng.msDrawMap self._map
  match mem.mapAt self with
  | none => ⟨.fault, [.msDrawMap self._map]⟩
  | some m =>
    let saved := eng.msSaveImageBuffer im m.outputformat
    ⟨.returned (.buffer saved.1 saved.2),
      [.msDrawMap self._map, .msSaveImageBuffer im m.outputformat,
       .BufferNew saved.1 saved.2, .msFreeImage im]⟩

/-! ## `Layer` -/

/-- The handler `Layer::NamedPropertyGetter`; `String::New` reads the characters that
`layer->_layer->name` points at. -/
def Layer.NamedPropertyGetter (self : Layer) (property : String) (mem : Memory) : Result :=
  if property = "name" then
    match mem.layerAt self with
    | none => ⟨.fault, []⟩
    | some l =>
      match mem.cstr l.name with
      | none => ⟨.fault, []⟩
      | some s => ⟨.returned (.string s), []⟩
  else
    ⟨.returned .undefined, []⟩

/-- The handler `Layer::NamedPropertySetter`.  The local
`String::Utf8Value name` owns a fresh character buffer; the field receives the
address of that buffer; the buffer is released when `name` goes out of scope at
the closing brace of the `if` block.  The handler is declared to return
`Handle<Value>` and contains no `return` statement: on every path control then
flows off the end of the function, which is undefined behaviour; the
completion is `fault` on every path. -/
def Layer.NamedPropertySetter (self : Layer) (property : String) (value : JsValue)
    (mem : Memory) : Assigned :=
  if property = "name" then
    let name := mem.chars.length
    let mem1 : Memory := { mem with chars := mem.chars ++ [some value.ToString] }
    match self._layer, mem1.layerAt self with
    | some p, some l =>
      let mem2 : Memory :=
        { mem1 with layerObjs := mem1.layerObjs.set p { l with name := some name } }
      ⟨some { mem2 with chars := mem2.chars.set name none }, .fault⟩
    | _, _ => ⟨none, .fault⟩
  else
    ⟨some mem, .fault⟩

/-! ## Sequences of operations on the borrowed wrappers -/

/-- One operation of the host program on a `Layer` or an `ErrorObj`, or the
step that obtains one. -/
inductive WrapperOp
  | layersIndex (map : Map) (index : Nat)
  | layerNew (args : List JsValue)
  | layerGet (self : Layer) (property : String)
  | layerSet (self : Layer) (property : String) (value : JsValue)
  | layerDestroy (self : Layer)
  | layerFinalize (self : Layer)
  | getError
  | errorNew (args : List JsValue)
  | errorGet (self : ErrorObj) (property : String)
  | errorFinalize (self : ErrorObj)

/-- Run one operation: native memory afterwards (`none` after an access to
native memory that is not there) and the calls it made.  After a setter the run
goes on from the memory its stores left, however the setter ended, so that the
calls of the operations that follow it are covered as well. -/
def WrapperOp.run (eng : Engine) (mem : Memory) : WrapperOp → Option Memory × List Event
  | .layersIndex map index =>
    let r := (Map.LayersIndexedGetter map index mem).1
    (if r.completion = .fault then none else some mem, r.trace)
  | .layerNew args => (some mem, (Layer.New args).trace)
  | .layerGet self property =>
    let r := Layer.NamedPropertyGetter self property mem
    (if r.completion = .fault then none else some mem, r.trace)
  | .layerSet self property value =>
    ((Layer.NamedPropertySetter self property value mem).memory, [])
  | .layerDestroy self => (some mem, (Layer.Destroy self).trace)
  | .layerFinalize self => (some mem, Layer.finalize self)
  | .getError => (some mem, (GetError eng []).trace)
  | .errorNew args => (some mem, (ErrorObj.New args).trace)
  | .errorGet self property =>
    let r := ErrorObj.NamedPropertyGetter eng self property mem
    (if r.completion = .fault then none else some mem, r.trace)
  | .errorFinalize self => (some mem, ErrorObj.finalize self)

/-- Run a sequence of operations, stopping where native memory is lost, and
collect the calls made. -/
def runOps (eng : Engine) : List WrapperOp → Memory → List Event
  | [], _ => []
  | op :: ops, mem =>
    match op.run eng mem with
    | (none, evs) => evs
    | (some mem1, evs) => evs ++ runOps eng ops mem1

/-! ## Concrete inputs -/

/-- An engine that loads `good.map` at address 0, draws the map at address 0
into raster 7, and encodes every raster as 16 bytes at address 3. -/
def demoEngine : Engine where
  errorList := [0]
  msLoadMap := fun filename _ => if filename = "good.map" then some 0 else none
  msDrawMap := fun map => if map = some 0 then some 7 else none
  msSaveImageBuffer := fun _ _ => (some 3, 16)
  msGetErrorCodeString := fun _ => "Unable to access file."

/-- An engine whose draw operation always fails. -/
def failingEngine : Engine where
  errorList := []
  msLoadMap := fun _ _ => none
  msDrawMap := fun _ => none
  msSaveImageBuffer := fun _ _ => (none, 0)
  msGetErrorCodeString := fun _ => ""

/-- A 400 by 300 map with one layer, named `roads`. -/
def demoMemory : Memory where
  mapObjs := [⟨400, 300, 1, [some 0], some 1⟩]
  layerObjs := [⟨some 0⟩]
  errorObjs := [⟨1, "file not found", "msLoadMap()"⟩]
  chars := [some "roads"]

/-- A map whose layer count is 1 and whose slot 0 holds a null pointer. -/
def nullSlotMemory : Memory where
  mapObjs := [⟨400, 300, 1, [none], some 1⟩]
  layerObjs := []
  errorObjs := []
  chars := []

/-- A map whose `int` layer count is negative. -/
def negativeCountMemory : Memory where
  mapObjs := [⟨400, 300, -1, [some 0], some 1⟩]
  layerObjs := [⟨some 0⟩]
  errorObjs := []
  chars := [some "roads"]

/-- The wrapper of the map at address 0. -/
def demoMap : Map := ⟨some 0⟩

/-- A host runtime that converts every value that is not a number to zero. -/
def demoHost : Host where
  Int32Value := fun _ => 0

/-! ## Theorems -/

theorem REQ_STR_ARG_error (args : List JsValue) (I : Nat)
    (h : args.length ≤ I ∨ (arg args I).IsString = false) :
    ∃ message, REQ_STR_ARG args I = .error (.thrown .TypeError message) := by
  refine ⟨"Argument " ++ toString I ++ " must be a string", ?_⟩
  unfold REQ_STR_ARG
  rcases h with h | h
  · simp [h]
  · simp [h]

theorem REQ_STR_ARG_ok (args : List JsValue) (I : Nat)
    (h : ¬ (args.length ≤ I ∨ (arg args I).IsString = false)) :
    ∃ s, REQ_STR_ARG args I = .ok s := by
  refine ⟨(arg args I).ToString, ?_⟩
  unfold REQ_STR_ARG
  have h1 : ¬ args.length ≤ I := fun hc => h (Or.inl hc)
  have h2 : (arg args I).IsString = true := by
    cases hs : (arg args I).IsString
    · exact absurd (Or.inr hs) h
    · rfl
  simp [h1, h2]

theorem REQ_STR_ARG_string (args : List JsValue) (I : Nat) (s : String)
    (h : args[I]? = some (.string s)) : REQ_STR_ARG args I = .ok s := by
  have hlt : I < args.length := by
    by_contra hge
    rw [List.getElem?_eq_none (by omega)] at h
    cases h
  have harg : arg args I = .string s := by
    unfold arg
    rw [List.getD_eq_getElem?_getD, h]
    rfl
  unfold REQ_STR_ARG
  simp [harg, JsValue.IsString, JsValue.ToString, hlt]

/-- C9: a call of `loadMap` with fewer than two arguments, or with an argument 0
or argument 1 that is not a string, ends in a thrown `TypeError`, and no call
reaches the engine (the trace of calls is empty). -/
theorem LoadMap_rejects_bad_arguments (eng : Engine) (args : List JsValue)
    (h : args.length < 2 ∨ (arg args 0).IsString = false ∨ (arg args 1).IsString = false) :
    (∃ message, (LoadMap eng args).completion = .thrown .TypeError message) ∧
      (LoadMap eng args).trace = [] := by
  unfold LoadMap
  by_cases h0 : args.length ≤ 0 ∨ (arg args 0).IsString = false
  · obtain ⟨m, hm⟩ := REQ_STR_ARG_error args 0 h0
    rw [hm]
    exact ⟨⟨m, rfl⟩, rfl⟩
  · have h1 : args.length ≤ 1 ∨ (arg args 1).IsString = false := by
      rcases h with h | h | h
      · left; omega
      · exact absurd (Or.inr h) h0
      · right; exact h
    obtain ⟨m, hm⟩ := REQ_STR_ARG_error args 1 h1
    obtain ⟨f, hf⟩ := REQ_STR_ARG_ok args 0 h0
    rw [hf, hm]
    exact ⟨⟨m, rfl⟩, rfl⟩


/-- Witness for C9: a call with a single argument. -/
theorem LoadMap_rejects_bad_arguments_witness :
    ([JsValue.string "good.map"].length < 2 ∨
        (arg [JsValue.string "good.map"] 0).IsString = false ∨
        (arg [JsValue.string "good.map"] 1).IsString = false) ∧
      ((∃ message, (LoadMap demoEngine [JsValue.string "good.map"]).completion
          = .thrown .TypeError message) ∧
        (LoadMap demoEngine [JsValue.string "good.map"]).trace = []) :=
  ⟨Or.inl (by decide),
    LoadMap_rejects_bad_arguments demoEngine [JsValue.string "good.map"] (Or.inl (by decide))⟩

theorem LoadMap_strings (eng : Engine) (filename path : String) :
    LoadMap eng [.string filename, .string path] =
      match eng.msLoadMap filename path with
      | none => ⟨.thrown .Error "Ugh", [.msLoadMap filename path]⟩
      | some h =>
        ⟨.returned (.mapObject ⟨some h⟩), [.msLoadMap filename path, .newMap (some h)]⟩ := by
  unfold LoadMap
  rw [REQ_STR_ARG_string _ 0 filename rfl, REQ_STR_ARG_string _ 1 path rfl]
  cases hm : eng.msLoadMap filename path with
  | none => simp [hm]
  | some h => simp [hm, RETURN_MAP, Map.New, REQ_EXT_ARG, arg, JsValue.IsExternal]

/-- C3, as the code has it: for string arguments `filename` and `path`, when the
engine's load returns null `loadMap` throws an `Error` whose message is `Ugh`,
having called only the engine's load and constructed no `Map` wrapper; when it
returns a non-null handle `loadMap` returns a `Map` wrapper whose `_map` is
that handle. -/
theorem LoadMap_null_or_wrapper (eng : Engine) (filename path : String) :
    (eng.msLoadMap filename path = none →
      LoadMap eng [.string filename, .string path] =
        ⟨.thrown .Error "Ugh", [.msLoadMap filename path]⟩) ∧
    (∀ h, eng.msLoadMap filename path = some h →
      LoadMap eng [.string filename, .string path] =
        ⟨.returned (.mapObject ⟨some h⟩), [.msLoadMap filename path, .newMap (some h)]⟩) := by
  constructor
  · intro hn
    rw [LoadMap_strings, hn]
  · intro h hs
    rw [LoadMap_strings, hs]

/-- Witness for C3: a file the engine refuses and a file it loads at address 0. -/
theorem LoadMap_null_or_wrapper_witness :
    LoadMap demoEngine [.string "bad.map", .string "/maps"] =
        ⟨.thrown .Error "Ugh", [.msLoadMap "bad.map" "/maps"]⟩ ∧
      LoadMap demoEngine [.string "good.map", .string "/maps"] =
        ⟨.returned (.mapObject ⟨some 0⟩), [.msLoadMap "good.map" "/maps", .newMap (some 0)]⟩ :=
  ⟨(LoadMap_null_or_wrapper demoEngine "bad.map" "/maps").1 (by decide),
    (LoadMap_null_or_wrapper demoEngine "good.map" "/maps").2 0 (by decide)⟩

/-- C3 as stated fails: the engine returns null for `bad.map`, and the error
thrown by `loadMap` does not carry the message `could not load map definition`. -/
theorem LoadMap_message_counterexample :
    demoEngine.msLoadMap "bad.map" "/maps" = none ∧
      ¬ ∃ type, (LoadMap demoEngine [.string "bad.map", .string "/maps"]).completion
          = .thrown type "could not load map definition" := by
  refine ⟨by decide, ?_⟩
  rintro ⟨type, h⟩
  rw [LoadMap_strings] at h
  simp [demoEngine] at h

theorem GetError_eq (eng : Engine) (args : List JsValue) :
    GetError eng args =
      match msGetErrorObj eng with
      | none => ⟨.returned .undefined, [.msGetErrorObj]⟩
      | some p => ⟨.returned (.errorObject ⟨some p⟩), [.msGetErrorObj, .newErrorObj (some p)]⟩ := by
  unfold GetError
  cases he : msGetErrorObj eng with
  | none => simp [he]
  | some p => simp [he, RETURN_ERROR, ErrorObj.New, REQ_EXT_ARG, arg, JsValue.IsExternal]

/-- C8: with the engine's error list following its contract, `getError` right
after `resetErrorList` returns `undefined`; `getError` returns `undefined`
exactly when the engine's most-recent-error query yields null; and otherwise it
returns an `ErrorObj` whose `_err` is the very pointer the engine returned,
having called nothing but that query and the wrapper's constructor (no copy,
no release). -/
theorem GetError_none_iff_engine_null (eng : Engine) (args args1 : List JsValue) :
    (GetError (ResetErrorList eng args).1 args1).completion = .returned .undefined ∧
    ((GetError eng args).completion = .returned .undefined ↔ msGetErrorObj eng = none) ∧
    (∀ p, msGetErrorObj eng = some p →
      GetError eng args =
        ⟨.returned (.errorObject ⟨some p⟩), [.msGetErrorObj, .newErrorObj (some p)]⟩) := by
  refine ⟨?_, ?_, ?_⟩
  · rw [GetError_eq]
    simp [ResetErrorList, msResetErrorList, msGetErrorObj]
  · rw [GetError_eq]
    cases he : msGetErrorObj eng with
    | none => simp
    | some p => simp
  · intro p hp
    rw [GetError_eq, hp]

/-- Witness for C8: an engine whose error list holds the record at address 0. -/
theorem GetError_none_iff_engine_null_witness :
    msGetErrorObj demoEngine = some 0 ∧
      GetError demoEngine [] =
        ⟨.returned (.errorObject ⟨some 0⟩), [.msGetErrorObj, .newErrorObj (some 0)]⟩ :=
  ⟨rfl, (GetError_none_iff_engine_null demoEngine [] []).2.2 0 rfl⟩

theorem WrapperOp_run_no_free (eng : Engine) (mem : Memory) (op : WrapperOp) :
    (op.run eng mem).2.filter Event.isFree = [] := by
  cases op with
  | layersIndex map index =>
    simp only [WrapperOp.run, Map.LayersIndexedGetter]
    split
    · rfl
    · split
      · split
        · rfl
        · rename_i layer _
          cases layer <;>
            simp [RETURN_LAYER, Layer.New, REQ_EXT_ARG, arg, JsValue.IsExternal, Event.isFree]
      · rfl
  | layerNew args =>
    simp only [WrapperOp.run, Layer.New]
    split <;> simp [Event.isFree]
  | layerGet self property =>
    simp only [WrapperOp.run, Layer.NamedPropertyGetter]
    repeat' split
    all_goals rfl
  | layerSet self property value => rfl
  | layerDestroy self => rfl
  | layerFinalize self => simp [WrapperOp.run, Layer.finalize]
  | getError =>
    simp only [WrapperOp.run, GetError_eq]
    split <;> simp [Event.isFree]
  | errorNew args =>
    simp only [WrapperOp.run, ErrorObj.New]
    split <;> simp [Event.isFree]
  | errorGet self property =>
    simp only [WrapperOp.run, ErrorObj.NamedPropertyGetter]
    repeat' split
    all_goals simp [Event.isFree]
  | errorFinalize self => rfl

theorem runOps_no_free (eng : Engine) (ops : List WrapperOp) :
    ∀ mem : Memory, (runOps eng ops mem).filter Event.isFree = [] := by
  induction ops with
  | nil => intro mem; rfl
  | cons op ops ih =>
    intro mem
    have h := WrapperOp_run_no_free eng mem op
    unfold runOps
    rcases hr : op.run eng mem with ⟨mem1, evs⟩
    rw [hr] at h
    cases mem1 with
    | none => simpa using h
    | some mem1 =>
      simp only [List.filter_append]
      rw [ih mem1]
      simpa using h

/-- C4: finalizing a `Map` wrapper that holds the non-null handle `h` makes
exactly one call of the engine's `msFreeMap`, on `h`, and nothing else; and
whatever sequence of operations is run on `Layer` proxies and `ErrorObj`
wrappers (obtaining them from `layers[i]` and `getError`, constructing,
reading, writing, destroying, finalizing), the calls made contain no release
operation of the engine. -/
theorem Map_finalize_frees_once_borrowed_never (eng : Engine) (h : Nat)
    (ops : List WrapperOp) (mem : Memory) :
    Map.finalize ⟨some h⟩ = [.msFreeMap (some h)] ∧
      (runOps eng ops mem).filter Event.isFree = [] :=
  ⟨by simp [Map.finalize], runOps_no_free eng ops mem⟩

theorem toUInt32_of_nonneg (n : Int) (h0 : 0 ≤ n) (h1 : n < 2 ^ 31) :
    toUInt32 n = n.toNat := by
  unfold toUInt32
  norm_num at h1 ⊢
  omega

theorem Map_NamedPropertySetter_completion (host : Host) (self : Map) (property : String)
    (value : JsValue) (mem : Memory) :
    (Map.NamedPropertySetter host self property value mem).completion = .fault := by
  unfold Map.NamedPropertySetter
  repeat' split
  all_goals rfl

theorem Layer_NamedPropertySetter_completion (self : Layer) (property : String)
    (value : JsValue) (mem : Memory) :
    (Layer.NamedPropertySetter self property value mem).completion = .fault := by
  unfold Layer.NamedPropertySetter
  split
  · simp only []
    split <;> rfl
  · rfl

/-- C6 on the code: on the 400 by 300 map, reading `width` and `height` before
any assignment returns 400 and 300; assigning -5 to `width` (and to `height`)
stores -5 in the native field, and the setter then reaches its closing brace
without a `return` statement, so the assignment ends in undefined behaviour
instead of handing control back to the host program: the read that should
return -5 is not reached in a defined way. -/
theorem Map_width_assignment_never_returns :
    Map.NamedPropertyGetter demoMap "width" demoMemory = ⟨.returned (.number 400), []⟩ ∧
      Map.NamedPropertyGetter demoMap "height" demoMemory = ⟨.returned (.number 300), []⟩ ∧
      Map.NamedPropertySetter demoHost demoMap "width" (.number (-5)) demoMemory =
        ⟨some { demoMemory with mapObjs := [⟨-5, 300, 1, [some 0], some 1⟩] }, .fault⟩ ∧
      Map.NamedPropertySetter demoHost demoMap "height" (.number (-5)) demoMemory =
        ⟨some { demoMemory with mapObjs := [⟨400, -5, 1, [some 0], some 1⟩] }, .fault⟩ := by
  decide

/-- C10 on the code: on the 400 by 300 map, assigning `layers` or `title` makes
no store at all and assigning `width` stores into the `width` field only, but
in each case the setter reaches its closing brace without a `return`
statement, so the assignment ends in undefined behaviour and nothing is
guaranteed about the native map afterwards; the named getter, for its part,
returns `undefined` for a name such as `drawMap` that is none of `width`,
`height`, `layers`. -/
theorem Map_assignment_of_any_name_never_returns :
    Map.NamedPropertySetter demoHost demoMap "layers" (.number 640) demoMemory =
        ⟨some demoMemory, .fault⟩ ∧
      Map.NamedPropertySetter demoHost demoMap "title" (.string "x") demoMemory =
        ⟨some demoMemory, .fault⟩ ∧
      Map.NamedPropertySetter demoHost demoMap "width" (.number 640) demoMemory =
        ⟨some { demoMemory with mapObjs := [⟨640, 300, 1, [some 0], some 1⟩] }, .fault⟩ ∧
      Map.NamedPropertyGetter demoMap "drawMap" demoMemory = ⟨.returned .undefined, []⟩ := by
  decide

theorem DrawMap_eq (eng : Engine) (self : Map) (args : List JsValue) (mem : Memory)
    (m : mapObj) (hm : mem.mapAt self = some m) :
    Map.DrawMap eng self args mem =
      ⟨.returned (.buffer (eng.msSaveImageBuffer (eng.msDrawMap self._map) m.outputformat).1
          (eng.msSaveImageBuffer (eng.msDrawMap self._map) m.outputformat).2),
        [.msDrawMap self._map,
         .msSaveImageBuffer (eng.msDrawMap self._map) m.outputformat,
         .BufferNew (eng.msSaveImageBuffer (eng.msDrawMap self._map) m.outputformat).1
          (eng.msSaveImageBuffer (eng.msDrawMap self._map) m.outputformat).2,
         .msFreeImage (eng.msDrawMap self._map)]⟩ := by
  simp [Map.DrawMap, hm]

/-- C7, as the code has it: in one `drawMap` call whose draw step returns the
raster `im`, the calls are, in order, the draw, the encoding of `im`, the
wrapping of the encoded bytes by `Buffer::New`, and the release of `im`; so `im`
is released exactly once, after the encoding and after the bytes have been
wrapped; `drawMap` itself makes no call of `msFree`, and the buffer's release
callback is the call of `msFree` on the encoded bytes. -/
theorem DrawMap_releases_raster_after_wrapping (eng : Engine) (self : Map)
    (args : List JsValue) (mem : Memory) (m : mapObj) (im : Nat)
    (hm : mem.mapAt self = some m) (hd : eng.msDrawMap self._map = some im) :
    (Map.DrawMap eng self args mem).trace =
        [.msDrawMap self._map,
         .msSaveImageBuffer (some im) m.outputformat,
         .BufferNew (eng.msSaveImageBuffer (some im) m.outputformat).1
          (eng.msSaveImageBuffer (some im) m.outputformat).2,
         .msFreeImage (some im)] ∧
      (Map.DrawMap eng self args mem).trace.count (.msFreeImage (some im)) = 1 ∧
      (∀ data, Event.msFree data ∉ (Map.DrawMap eng self args mem).trace) ∧
      Map.FreeImageBuffer (eng.msSaveImageBuffer (some im) m.outputformat).1 none =
        [.msFree (eng.msSaveImageBuffer (some im) m.outputformat).1] := by
  rw [DrawMap_eq eng self args mem m hm, hd]
  refine ⟨rfl, ?_, ?_, rfl⟩
  · simp [List.count_cons]
  · intro data
    simp

/-- Witness for C7: the demo engine draws the map at address 0 into raster 7. -/
theorem DrawMap_releases_raster_after_wrapping_witness :
    (Map.DrawMap demoEngine demoMap [] demoMemory).trace =
        [.msDrawMap (some 0), .msSaveImageBuffer (some 7) (some 1), .BufferNew (some 3) 16,
         .msFreeImage (some 7)] ∧
      (Map.DrawMap demoEngine demoMap [] demoMemory).trace.count (.msFreeImage (some 7)) = 1 :=
  ⟨(DrawMap_releases_raster_after_wrapping demoEngine demoMap [] demoMemory
      ⟨400, 300, 1, [some 0], some 1⟩ 7 rfl rfl).1,
    (DrawMap_releases_raster_after_wrapping demoEngine demoMap [] demoMemory
      ⟨400, 300, 1, [some 0], some 1⟩ 7 rfl rfl).2.1⟩

/-- C7 as stated fails: the draw step succeeds with raster 7, and the release
of raster 7 does not come before the wrapping of the encoded bytes: in the
sequence of calls `Buffer::New` stands at position 2 and `msFreeImage` at
position 3. -/
theorem DrawMap_release_order_counterexample :
    demoEngine.msDrawMap demoMap._map = some 7 ∧
      (Map.DrawMap demoEngine demoMap [] demoMemory).trace.indexOf (.BufferNew (some 3) 16) = 2 ∧
      (Map.DrawMap demoEngine demoMap [] demoMemory).trace.indexOf (.msFreeImage (some 7)) = 3 ∧
      ¬ ((Map.DrawMap demoEngine demoMap [] demoMemory).trace.indexOf (.msFreeImage (some 7)) <
        (Map.DrawMap demoEngine demoMap [] demoMemory).trace.indexOf (.BufferNew (some 3) 16)) := by
  decide

/-- C2 on the code: when the engine's draw returns a null raster, `drawMap`
does not throw; it hands the null raster to the encoder, wraps what the encoder
returns in a buffer, passes null to `msFreeImage`, and returns the buffer. -/
theorem DrawMap_null_raster_reaches_encoder :
    failingEngine.msDrawMap demoMap._map = none ∧
      Map.DrawMap failingEngine demoMap [] demoMemory =
        ⟨.returned (.buffer none 0),
          [.msDrawMap (some 0), .msSaveImageBuffer none (some 1), .BufferNew none 0,
           .msFreeImage none]⟩ := by
  decide

/-- C1, as the code has it: for a map wrapper whose handle points at the native
map `m`, with `numlayers` a non-negative 32-bit integer, and every `uint32_t`
index: when the index is not below `numlayers` the indexed getter returns
`undefined`, makes no call and reads no slot of the layer array; when the index
is below `numlayers` and slot `index` holds the non-null layer pointer `l` it
returns a `Layer` proxy whose `_layer` is `l`; and when that slot holds a null
pointer it returns `null`.  A key that is no `uint32_t` index (a negative
number) reaches the named getter of the layers object instead, which returns
`undefined` for every name other than `length`. -/
theorem LayersIndexedGetter_in_and_out_of_range (mem : Memory) (self : Map) (m : mapObj)
    (index : Nat) (hm : mem.mapAt self = some m)
    (h0 : 0 ≤ m.numlayers) (h1 : m.numlayers < 2 ^ 31) :
    (¬ (index : Int) < m.numlayers →
      Map.LayersIndexedGetter self index mem = (⟨.returned .undefined, []⟩, [])) ∧
    (∀ l, (index : Int) < m.numlayers → m.layers[index]? = some (some l) →
      (Map.LayersIndexedGetter self index mem).1 =
        ⟨.returned (.layerObject ⟨some l⟩), [.newLayer (some l)]⟩) ∧
    ((index : Int) < m.numlayers → m.layers[index]? = some none →
      (Map.LayersIndexedGetter self index mem).1 = ⟨.returned .null, []⟩) ∧
    (∀ name, name ≠ "length" →
      Map.LayersNamedGetter self name mem = ⟨.returned .undefined, []⟩) := by
  have hu := toUInt32_of_nonneg m.numlayers h0 h1
  refine ⟨?_, ?_, ?_, ?_⟩
  · intro hge
    have : ¬ index < toUInt32 m.numlayers := by rw [hu]; omega
    simp [Map.LayersIndexedGetter, hm, this]
  · intro l hlt hs
    have : index < toUInt32 m.numlayers := by rw [hu]; omega
    simp [Map.LayersIndexedGetter, hm, this, hs, RETURN_LAYER, Layer.New, REQ_EXT_ARG, arg,
      JsValue.IsExternal]
  · intro hlt hs
    have : index < toUInt32 m.numlayers := by rw [hu]; omega
    simp [Map.LayersIndexedGetter, hm, this, hs, RETURN_LAYER]
  · intro name hn
    simp [Map.LayersNamedGetter, hn]

/-- Witness for C1: the one-layer map, at index 0 (in range) and index 1 (out of
range), and the map whose slot 0 is null. -/
theorem LayersIndexedGetter_in_and_out_of_range_witness :
    Map.LayersIndexedGetter demoMap 1 demoMemory = (⟨.returned .undefined, []⟩, []) ∧
      (Map.LayersIndexedGetter demoMap 0 demoMemory).1 =
        ⟨.returned (.layerObject ⟨some 0⟩), [.newLayer (some 0)]⟩ ∧
      (Map.LayersIndexedGetter demoMap 0 nullSlotMemory).1 = ⟨.returned .null, []⟩ :=
  ⟨(LayersIndexedGetter_in_and_out_of_range demoMemory demoMap
      ⟨400, 300, 1, [some 0], some 1⟩ 1 rfl (by decide) (by decide)).1 (by decide),
    (LayersIndexedGetter_in_and_out_of_range demoMemory demoMap
      ⟨400, 300, 1, [some 0], some 1⟩ 0 rfl (by decide) (by decide)).2.1 0 (by decide) rfl,
    (LayersIndexedGetter_in_and_out_of_range nullSlotMemory demoMap
      ⟨400, 300, 1, [none], some 1⟩ 0 rfl (by decide) (by decide)).2.2.1 (by decide) rfl⟩

/-- C1 as stated fails: on the map whose `numlayers` is 1 and whose slot 0
holds a null pointer, index 0 lies inside `[0, numlayers)` and the indexed
getter returns `null`, which is no `Layer` proxy; and on the map whose
`numlayers` is -1, index 0 lies outside `[0, numlayers)` and the indexed getter
reads slot 0 of the layer array and returns a `Layer` proxy. -/
theorem LayersIndexedGetter_counterexample :
    (nullSlotMemory.mapAt demoMap).map mapObj.numlayers = some 1 ∧
      Map.LayersIndexedGetter demoMap 0 nullSlotMemory = (⟨.returned .null, []⟩, [0]) ∧
      (negativeCountMemory.mapAt demoMap).map mapObj.numlayers = some (-1) ∧
      Map.LayersIndexedGetter demoMap 0 negativeCountMemory =
        (⟨.returned (.layerObject ⟨some 0⟩), [.newLayer (some 0)]⟩, [0, 0]) := by
  decide

/-- C5 on the code: on the one-layer map whose layer is named `roads`, both
proxies obtained from `layers[0]` wrap the layer at address 0 and read `roads`;
after the name is set to `rivers` through one proxy, the layer's `name` field
holds the address of the setter's local buffer, that buffer has been released,
and reading the name through the other proxy reads released memory instead of
returning `rivers`. -/
theorem Layer_name_set_leaves_dangling_pointer :
    (Map.LayersIndexedGetter demoMap 0 demoMemory).1.completion =
        .returned (.layerObject ⟨some 0⟩) ∧
      Layer.NamedPropertyGetter ⟨some 0⟩ "name" demoMemory = ⟨.returned (.string "roads"), []⟩ ∧
      (Layer.NamedPropertySetter ⟨some 0⟩ "name" (.string "rivers") demoMemory).memory =
        some ⟨demoMemory.mapObjs, [⟨some 1⟩], demoMemory.errorObjs, [some "roads", none]⟩ ∧
      (Layer.NamedPropertySetter ⟨some 0⟩ "name" (.string "rivers") demoMemory).memory.map
          (Layer.NamedPropertyGetter ⟨some 0⟩ "name") = some ⟨.fault, []⟩ := by
  decide

end Mapserver
